import Mathlib

/-!
Shallow embedding of the rate-limiting and error-classification core of the
learn-express-best-practice repository.

The embedded code comes from:
- src/middleware/rateLimitter.ts (getKey, rateLimitterHandler, the two
  limiter configurations apiLimiter and authLimiter),
- src/middleware/errorHandler.ts (errorHandler),
- src/utils/errors.ts (the AppError class hierarchy),
- src/config/env.ts (environment defaults and the isDevelopment /
  isProduction / isTest helpers),
- the middleware-ordering composition shown in the Correct Order snippet of
  the best-practices guide.

The admission-check algorithm itself lives in the external express-rate-limit
dependency and is not part of the repository; it is modelled from the spec
(section 4.1) where noted.
-/

/-! ## Environment configuration (src/config/env.ts) -/

inductive NodeEnv where
  | development
  | production
  | test
deriving DecidableEq, Repr

structure Config where
  nodeEnv : NodeEnv
deriving DecidableEq, Repr

/-- config.isDevelopment from env.ts: NODE_ENV equals development. -/
def Config.isDevelopment (c : Config) : Bool := c.nodeEnv = NodeEnv.development

/-- config.isProduction from env.ts: NODE_ENV equals production. -/
def Config.isProduction (c : Config) : Bool := c.nodeEnv = NodeEnv.production

/-- config.isTest from env.ts: NODE_ENV equals test. -/
def Config.isTest (c : Config) : Bool := c.nodeEnv = NodeEnv.test

def devConfig : Config := ⟨NodeEnv.development⟩
def prodConfig : Config := ⟨NodeEnv.production⟩
def testConfig : Config := ⟨NodeEnv.test⟩

/-- The rate-limit block of config in env.ts. -/
structure RateLimitCfg where
  windowMs : Nat
  max : Nat
  authMs : Nat
  authMax : Nat
deriving DecidableEq, Repr

/-- Defaults of envSchema in env.ts: RATE_LIMIT_WINDOW_MS 900000,
RATE_LIMIT_MAX 100, AUTH_RATE_LIMIT_WINDOW_MS 900000,
AUTH_RATE_LIMIT_MAX 5. -/
def defaultRateLimitCfg : RateLimitCfg := ⟨900000, 100, 900000, 5⟩

/-! ## Error classes (src/utils/errors.ts)

Each subclass of AppError fixes a statusCode and an isOperational flag via
its super call. ValidationError additionally carries optional details; the
record tracks subclass identity with the isValidation flag so that the
instanceof check of the handler can be expressed. -/

structure AppErrorData where
  statusCode : Nat
  message : String
  isOperational : Bool
  isValidation : Bool
  details : Option String
deriving DecidableEq, Repr

/-- class BadRequestError: super(400, message). -/
def BadRequestError (message : String) : AppErrorData :=
  ⟨400, message, true, false, none⟩

/-- class UnauthorizedError: super(401, message). -/
def UnauthorizedError (message : String) : AppErrorData :=
  ⟨401, message, true, false, none⟩

/-- class ForbiddenError: super(403, message). -/
def ForbiddenError (message : String) : AppErrorData :=
  ⟨403, message, true, false, none⟩

/-- class NotFoundError: super(404, message). -/
def NotFoundError (message : String) : AppErrorData :=
  ⟨404, message, true, false, none⟩

/-- class ConflictError: super(409, message). -/
def ConflictError (message : String) : AppErrorData :=
  ⟨409, message, true, false, none⟩

/-- class ValidationError: super(422, message) with optional details. -/
def ValidationError (message : String) (details : Option String) : AppErrorData :=
  ⟨422, message, true, true, details⟩

/-- class InternalServerError: super(500, message, false) — not operational. -/
def InternalServerError (message : String) : AppErrorData :=
  ⟨500, message, false, false, none⟩

/-- class RateLimitterError: its doc comment says 429 Too Many Request, but
the constructor body is super(500, message, false). -/
def RateLimitterError (message : String) : AppErrorData :=
  ⟨500, message, false, false, none⟩

/-- Default message of the RateLimitterError constructor in errors.ts. -/
def rateLimitterErrorDefaultMessage : String := "Too many request"

/-! ## Faults reaching the global error handler (src/middleware/errorHandler.ts)

The handler discriminates its input with instanceof checks, in source order:
jwt.TokenExpiredError, jwt.JsonWebTokenError, AppError,
Prisma.PrismaClientKnownRequestError (code plus optional meta),
Prisma.PrismaClientValidationError, and everything else. Every fault value
carries a stack string, as every JavaScript Error does. -/

inductive Err where
  | tokenExpired (message stack : String)
  | jsonWebToken (message stack : String)
  | appError (e : AppErrorData) (stack : String)
  | prismaKnown (code : String) (message : String) (meta : Option String) (stack : String)
  | prismaValidation (message stack : String)
  | generic (name message stack : String)
deriving DecidableEq, Repr

/-- Replace the stack carried by a fault, leaving all other data unchanged. -/
def Err.setStack : Err → String → Err
  | .tokenExpired m _, s => .tokenExpired m s
  | .jsonWebToken m _, s => .jsonWebToken m s
  | .appError e _, s => .appError e s
  | .prismaKnown c m meta _, s => .prismaKnown c m meta s
  | .prismaValidation m _, s => .prismaValidation m s
  | .generic n m _, s => .generic n m s

/-- The JSON body plus status code written by errorHandler:
res.status(st).json({success, error, details?}). -/
structure ErrResponse where
  status : Nat
  success : Bool
  error : String
  details : Option String
deriving DecidableEq, Repr

/-- The errorMap of the Prisma branch in errorHandler.ts. -/
def errorMap (code : String) : Option (Nat × String) :=
  if code = "P2002" then some (409, "Resource already exists")
  else if code = "P2003" then some (400, "Invalid reference")
  else if code = "P2025" then some (404, "Resource not found")
  else none

/-- errorHandler of src/middleware/errorHandler.ts, branch for branch:
JWT faults give 401 with a fixed message; an AppError answers with its own
statusCode and message (details attached for a ValidationError with details);
a known Prisma fault is mapped through errorMap, attaching err.meta when
config.isDevelopment, and falls through when its code is unmapped; a Prisma
validation fault gives 400; the default branch gives 500 with the message
replaced by a generic string when config.isProduction. -/
def errorHandler (cfg : Config) (err : Err) : ErrResponse :=
  match err with
  | .tokenExpired _ _ => ⟨401, false, "Token expired", none⟩
  | .jsonWebToken _ _ => ⟨401, false, "Invalid token", none⟩
  | .appError e _ =>
      ⟨e.statusCode, false, e.message,
        if e.isValidation ∧ e.details.isSome then e.details else none⟩
  | .prismaKnown code message meta _ =>
      match errorMap code with
      | some (st, m) =>
          ⟨st, false, m, if cfg.isDevelopment then meta else none⟩
      | none =>
          ⟨500, false, if cfg.isProduction then "Internal server error" else message, none⟩
  | .prismaValidation _ _ => ⟨400, false, "Invalid data provided", none⟩
  | .generic _ message _ =>
      ⟨500, false, if cfg.isProduction then "Internal server error" else message, none⟩

/-! ## Rate limiter key derivation (src/middleware/rateLimitter.ts)

getKey reads req.ip, req.socket.remoteAddress and req.user?.userId.
JavaScript truthiness drives both fallbacks: an absent or empty string falls
through the chain of logical-or, and a userId of 0 is falsy. -/

structure Req where
  ip : Option String
  remoteAddress : Option String
  userId : Option Nat
deriving DecidableEq, Repr

/-- JavaScript a || b on strings: an absent or empty left operand yields the
right operand. -/
def jsOrStr (a : Option String) (b : String) : String :=
  match a with
  | some s => if s = "" then b else s
  | none => b

/-- The address part of the key: req.ip || req.socket.remoteAddress ||
unknown. -/
def resolvedIp (req : Req) : String :=
  jsOrStr req.ip (jsOrStr req.remoteAddress "unknown")

/-- getKey of rateLimitter.ts: userId ? ip + colon + userId : ip, where the
ternary condition is JavaScript truthiness of the number userId. -/
def getKey (req : Req) : String :=
  let ip := resolvedIp req
  match req.userId with
  | some userId => if userId = 0 then ip else ip ++ ":" ++ toString userId
  | none => ip

/-- The body written by rateLimitterHandler in rateLimitter.ts:
status 429, success false, a fixed error string, and retryAfter read from
the Retry-After header. -/
structure RateLimitResponse where
  status : Nat
  success : Bool
  error : String
  retryAfter : Option Nat
deriving DecidableEq, Repr

def rateLimitterHandler (retryAfter : Option Nat) : RateLimitResponse :=
  ⟨429, false, "Too many requests, please try again later", retryAfter⟩

/-! ## Admission check -/

structure Policy where
  windowDurationMs : Nat
  maxRequests : Nat
deriving DecidableEq, Repr

structure WindowRecord where
  windowStart : Nat
  count : Nat
deriving DecidableEq, Repr

inductive Decision where
  | allowed
  | denied (retryAfterSeconds : Nat)
deriving DecidableEq, Repr

/-- Modelled from the spec: steps 1 and 2 of the admission check allow(key,
policy, now) of section 4.1 — the algorithm lives in the external
express-rate-limit dependency and is absent from src/. Step 1 looks up or
lazily creates the window record for the key (windowStart now, count 0);
step 2 resets the window when now minus windowStart has reached the window
duration. -/
def currentWindow (rec : Option WindowRecord) (policy : Policy) (now : Nat) : WindowRecord :=
  let r0 := rec.getD ⟨now, 0⟩
  if policy.windowDurationMs ≤ now - r0.windowStart then ⟨now, 0⟩ else r0

/-- Modelled from the spec: steps 3 and 4 of the admission check allow(key,
policy, now) of section 4.1. When the current window count has reached
maxRequests the request is denied with retryAfterSeconds equal to the
remaining window duration divided by 1000 and the count is not incremented;
otherwise the count is incremented and the request is allowed. The returned
record is the state stored for the key afterwards. -/
def allow (rec : Option WindowRecord) (policy : Policy) (now : Nat) : Decision × WindowRecord :=
  let r1 := currentWindow rec policy now
  if policy.maxRequests ≤ r1.count then
    (Decision.denied ((r1.windowStart + policy.windowDurationMs - now) / 1000), r1)
  else
    (Decision.allowed, ⟨r1.windowStart, r1.count + 1⟩)

/-- Run a sequence of admission checks for one key at the given times,
threading the stored window record. -/
def runChecks (rec : Option WindowRecord) (policy : Policy) : List Nat → List Decision × Option WindowRecord
  | [] => ([], rec)
  | t :: ts =>
      let step := allow rec policy t
      let rest := runChecks (some step.2) policy ts
      (step.1 :: rest.1, rest.2)

/-! ## The composed middleware chain (Correct Order snippet of the guide)

app.get("/health", healthHandler) runs before both limiters;
app.use("/auth", authLimiter) runs authLimiter for paths under /auth;
app.use(apiLimiter) then runs apiLimiter for every path (its skip predicate
exempts /health). A limiter that denies responds 429 and does not call
next(), so nothing after it runs. The state tracks, for one derived key, the
window record of each limiter. -/

/-- An express mount at /auth matches /auth itself and every path below it. -/
def isAuthPath (p : String) : Bool :=
  p = "/auth" ∨ List.isPrefixOf "/auth/".data p.data

def authPolicy (rl : RateLimitCfg) : Policy := ⟨rl.authMs, rl.authMax⟩

def apiPolicy (rl : RateLimitCfg) : Policy := ⟨rl.windowMs, rl.max⟩

structure ChainState where
  authRec : Option WindowRecord
  apiRec : Option WindowRecord
deriving DecidableEq, Repr

inductive ChainResult where
  | served
  | rateLimited (retryAfterSeconds : Nat)
  | health
deriving DecidableEq, Repr

/-- One request through the middleware chain of the Correct Order snippet,
for a fixed derived key: the health route first, then authLimiter on /auth
paths, then apiLimiter (skipping /health) on everything that reaches it. -/
def processRequest (rl : RateLimitCfg) (path : String) (s : ChainState) (now : Nat) :
    ChainResult × ChainState :=
  if path = "/health" then (ChainResult.health, s)
  else if isAuthPath path then
    match allow s.authRec (authPolicy rl) now with
    | (Decision.denied r, rec) => (ChainResult.rateLimited r, ⟨some rec, s.apiRec⟩)
    | (Decision.allowed, rec) =>
        match allow s.apiRec (apiPolicy rl) now with
        | (Decision.denied r, arec) => (ChainResult.rateLimited r, ⟨some rec, some arec⟩)
        | (Decision.allowed, arec) => (ChainResult.served, ⟨some rec, some arec⟩)
  else
    match allow s.apiRec (apiPolicy rl) now with
    | (Decision.denied r, arec) => (ChainResult.rateLimited r, ⟨s.authRec, some arec⟩)
    | (Decision.allowed, arec) => (ChainResult.served, ⟨s.authRec, some arec⟩)

/-! ## Theorems about the error classifier -/

/-- Claim C5: rate-limit denial does respond 429 with the stable body, but
the RateLimited error record of the taxonomy, as constructed by the
RateLimitterError class, carries httpStatus 500, not 429: the constructor
body contradicts the claim and the doc comment of the class itself. -/
theorem rateLimitterError_carries_500 :
    (rateLimitterHandler (some 900)).status = 429 ∧
    (rateLimitterHandler (some 900)).success = false ∧
    (rateLimitterHandler (some 900)).error = "Too many requests, please try again later" ∧
    (RateLimitterError rateLimitterErrorDefaultMessage).statusCode = 500 ∧
    (RateLimitterError rateLimitterErrorDefaultMessage).statusCode ≠ 429 := by
  refine ⟨rfl, rfl, rfl, rfl, by decide⟩

/-- Claim C6: in production, an unclassified fault is answered with status
500 and the exact message Internal server error, whatever its own message
and name are; and for every fault of any kind the response is independent
of the stack the fault carries, so no stack trace can reach the body. -/
theorem errorHandler_production_redaction (cfg : Config) (n m st s : String) (err : Err)
    (hp : cfg.nodeEnv = NodeEnv.production) :
    errorHandler cfg (Err.generic n m st) = ⟨500, false, "Internal server error", none⟩ ∧
    errorHandler cfg (err.setStack s) = errorHandler cfg err := by
  constructor
  · simp [errorHandler, Config.isProduction, hp]
  · cases err <;> simp [Err.setStack, errorHandler]

theorem errorHandler_production_redaction_witness :
    errorHandler prodConfig (Err.generic "TypeError" "boom" "trace") =
      ⟨500, false, "Internal server error", none⟩ ∧
    errorHandler prodConfig ((Err.generic "TypeError" "boom" "trace").setStack "other") =
      errorHandler prodConfig (Err.generic "TypeError" "boom" "trace") :=
  errorHandler_production_redaction prodConfig "TypeError" "boom" "trace" "other"
    (Err.generic "TypeError" "boom" "trace") rfl

/-- Claim C7: the handler never reads isOperational — a non-operational
AppError is answered through the AppError branch with its own message, even
in production. At the failing input, a RateLimitterError with its default
message, the production response is 500 with the message of the fault itself
"Too many request", not the generic Internal server error message. -/
theorem errorHandler_nonoperational_message_leak :
    (RateLimitterError rateLimitterErrorDefaultMessage).isOperational = false ∧
    errorHandler prodConfig
        (Err.appError (RateLimitterError rateLimitterErrorDefaultMessage) "trace") =
      ⟨500, false, "Too many request", none⟩ ∧
    "Too many request" ≠ "Internal server error" := by
  refine ⟨rfl, ?_, by decide⟩
  simp [errorHandler, RateLimitterError, rateLimitterErrorDefaultMessage]

/-- Claim C8, counterexample: in test mode the system is not in production,
yet a P2002 fault carrying metadata is answered without details — metadata
is attached only in development, not whenever production is off. -/
theorem errorHandler_prisma_meta_absent_in_test :
    testConfig.isProduction = false ∧
    (errorHandler testConfig
        (Err.prismaKnown "P2002" "unique failed" (some "target email") "trace")).details
      = none := by
  refine ⟨rfl, ?_⟩
  simp [errorHandler, errorMap, Config.isDevelopment, testConfig]

/-- Claim C8, amended: handle maps P2002 to 409, P2003 to 400 and P2025 to
404, each with its generic message, and the raw fault metadata is attached
exactly when the system runs in development mode. -/
theorem errorHandler_prisma_known_mapping (cfg : Config) (m st : String) (meta : Option String) :
    errorHandler cfg (Err.prismaKnown "P2002" m meta st) =
      ⟨409, false, "Resource already exists", if cfg.isDevelopment then meta else none⟩ ∧
    errorHandler cfg (Err.prismaKnown "P2003" m meta st) =
      ⟨400, false, "Invalid reference", if cfg.isDevelopment then meta else none⟩ ∧
    errorHandler cfg (Err.prismaKnown "P2025" m meta st) =
      ⟨404, false, "Resource not found", if cfg.isDevelopment then meta else none⟩ := by
  refine ⟨rfl, rfl, rfl⟩

/-- Claim C9: a known data-layer fault whose code is not one of P2002,
P2003, P2025 misses the errorMap and reaches the default branch: status 500
with the generic message in production, the raw message otherwise. -/
theorem errorHandler_prisma_unmapped_falls_through (cfg : Config) (code m st : String)
    (meta : Option String)
    (h1 : code ≠ "P2002") (h2 : code ≠ "P2003") (h3 : code ≠ "P2025") :
    errorHandler cfg (Err.prismaKnown code m meta st) =
      ⟨500, false, if cfg.isProduction then "Internal server error" else m, none⟩ := by
  simp [errorHandler, errorMap, h1, h2, h3]

theorem errorHandler_prisma_unmapped_witness :
    errorHandler prodConfig (Err.prismaKnown "P2000" "value too long for column" none "trace") =
      ⟨500, false,
        if prodConfig.isProduction then "Internal server error"
        else "value too long for column", none⟩ :=
  errorHandler_prisma_unmapped_falls_through prodConfig "P2000" "value too long for column"
    "trace" none (by decide) (by decide) (by decide)

/-! ## Theorems about key derivation -/

/-- Claim C4, counterexample: a request carrying the authenticated userId 0
gets the bare address key, not the address-colon-userId key, because the
ternary in getKey tests JavaScript truthiness of the number. -/
theorem getKey_userId_zero_refutes_claim :
    getKey ⟨some "1.2.3.4", none, some 0⟩ = "1.2.3.4" ∧
    getKey ⟨some "1.2.3.4", none, some 0⟩ ≠ "1.2.3.4:0" := by
  refine ⟨rfl, by decide⟩

/-- Claim C4, amended: the key is address-colon-userId when a nonzero
authenticated user id is present, the bare resolved address when the user id
is absent or 0, and the literal unknown when additionally no address is
resolvable. -/
theorem getKey_spec (r : Req) :
    (∀ u : Nat, r.userId = some u → u ≠ 0 →
      getKey r = resolvedIp r ++ ":" ++ toString u) ∧
    (r.userId = none ∨ r.userId = some 0 → getKey r = resolvedIp r) ∧
    ((r.ip = none ∨ r.ip = some "") → (r.remoteAddress = none ∨ r.remoteAddress = some "") →
      (r.userId = none ∨ r.userId = some 0) → getKey r = "unknown") := by
  obtain ⟨ip, ra, uid⟩ := r
  refine ⟨?_, ?_, ?_⟩
  · intro u hu hzero
    subst hu
    simp [getKey, hzero]
  · rintro (h | h) <;> subst h <;> simp [getKey]
  · rintro hip hra (h | h) <;> subst h <;>
      rcases hip with h1 | h1 <;> subst h1 <;>
      rcases hra with h2 | h2 <;> subst h2 <;>
      simp [getKey, resolvedIp, jsOrStr]

theorem getKey_spec_witness :
    getKey ⟨some "1.2.3.4", none, some 7⟩ =
      resolvedIp ⟨some "1.2.3.4", none, some 7⟩ ++ ":" ++ toString 7 ∧
    getKey ⟨some "1.2.3.4", none, none⟩ = resolvedIp ⟨some "1.2.3.4", none, none⟩ ∧
    getKey ⟨none, none, none⟩ = "unknown" :=
  ⟨(getKey_spec ⟨some "1.2.3.4", none, some 7⟩).1 7 rfl (by decide),
   (getKey_spec ⟨some "1.2.3.4", none, none⟩).2.1 (Or.inl rfl),
   (getKey_spec ⟨none, none, none⟩).2.2 (Or.inl rfl) (Or.inl rfl) (Or.inl rfl)⟩

/-- Claim C10: with an authenticated userId of 0, getKey returns the bare
resolved address — the same key the request would get with no user at all —
so such a user shares the anonymous quota of the address. -/
theorem getKey_userId_zero_shares_anonymous_key (ip ra : Option String) :
    getKey ⟨ip, ra, some 0⟩ = resolvedIp ⟨ip, ra, some 0⟩ ∧
    getKey ⟨ip, ra, some 0⟩ = getKey ⟨ip, ra, none⟩ := by
  constructor <;> simp [getKey, resolvedIp]

/-! ## Helper lemmas about the admission check -/

theorem currentWindow_none (policy : Policy) (now : Nat) :
    currentWindow none policy now = ⟨now, 0⟩ := by
  unfold currentWindow
  simp

theorem allow_fresh (dur max now : Nat) (h : 0 < max) :
    allow none ⟨dur, max⟩ now = (Decision.allowed, ⟨now, 1⟩) := by
  unfold allow
  rw [currentWindow_none]
  simp [Nat.not_le.mpr h]

theorem allow_in_window_allowed (w c dur max now : Nat)
    (h1 : w ≤ now) (h2 : now < w + dur) (h3 : c < max) :
    allow (some ⟨w, c⟩) ⟨dur, max⟩ now = (Decision.allowed, ⟨w, c + 1⟩) := by
  unfold allow currentWindow
  simp only [Option.getD]
  rw [if_neg (by omega : ¬ dur ≤ now - w)]
  rw [if_neg (by omega : ¬ max ≤ c)]

theorem allow_in_window_denied (w c dur max now : Nat)
    (h1 : w ≤ now) (h2 : now < w + dur) (h3 : max ≤ c) :
    allow (some ⟨w, c⟩) ⟨dur, max⟩ now =
      (Decision.denied ((w + dur - now) / 1000), ⟨w, c⟩) := by
  unfold allow currentWindow
  simp only [Option.getD]
  rw [if_neg (by omega : ¬ dur ≤ now - w)]
  rw [if_pos h3]

/-- An allowed admission increments the count of the current window by one
and keeps its start. -/
theorem allow_allowed_eq (o : Option WindowRecord) (pol : Policy) (now : Nat)
    (rec : WindowRecord) (h : allow o pol now = (Decision.allowed, rec)) :
    rec = ⟨(currentWindow o pol now).windowStart, (currentWindow o pol now).count + 1⟩ := by
  unfold allow at h
  by_cases hc : pol.maxRequests ≤ (currentWindow o pol now).count
  · rw [if_pos hc] at h
    simp at h
  · simp only [hc, if_false] at h
    exact (Prod.mk.injEq _ _ _ _ ▸ h).2.symm

/-! ## Theorems about windowing and quota -/

/-- Claim C3, counterexample: for a policy whose maximum is 0, a record with
count equal to the maximum is reset at now = windowStart plus the window
duration, but the check is still denied and the count after it is 0, not 1. -/
theorem allow_window_reset_refuted_at_zero_max :
    (WindowRecord.mk 0 0).count = (Policy.mk 900000 0).maxRequests ∧
    allow (some ⟨0, 0⟩) ⟨900000, 0⟩ (0 + 900000) =
      (Decision.denied 900, ⟨900000, 0⟩) := by
  refine ⟨rfl, by decide⟩

/-- Claim C3, amended: for a policy with a positive maximum and any key whose
record has count equal to that maximum, an admission check at now =
windowStart plus windowDurationMs is allowed, the window is reset to start
at now, and the stored count after the check is 1. -/
theorem allow_window_reset (rec : WindowRecord) (policy : Policy)
    (hmax : 0 < policy.maxRequests) (hcount : rec.count = policy.maxRequests) :
    allow (some rec) policy (rec.windowStart + policy.windowDurationMs) =
      (Decision.allowed, ⟨rec.windowStart + policy.windowDurationMs, 1⟩) := by
  unfold allow currentWindow
  simp only [Option.getD]
  rw [if_pos (by omega : policy.windowDurationMs ≤
    rec.windowStart + policy.windowDurationMs - rec.windowStart)]
  rw [if_neg (by omega : ¬ policy.maxRequests ≤ (0 : Nat))]

theorem allow_window_reset_witness :
    0 < (Policy.mk 900000 5).maxRequests ∧
    allow (some ⟨0, 5⟩) ⟨900000, 5⟩ (0 + 900000) = (Decision.allowed, ⟨0 + 900000, 1⟩) :=
  ⟨by decide, allow_window_reset ⟨0, 5⟩ ⟨900000, 5⟩ (by decide) rfl⟩

/-- Claim C2: under the auth policy of the env defaults, windowDurationMs
900000 and maxRequests 5, five consecutive checks for a fixed key within one
window are allowed; the sixth within the same window is denied with a
retryAfter of at most 900 seconds, the denial is surfaced as a 429 response,
and the stored count stays at 5 — the denied check does not increment it. -/
theorem authLimiter_quota_enforcement (t0 t1 t2 t3 t4 t5 : Nat)
    (h01 : t0 ≤ t1) (h12 : t1 ≤ t2) (h23 : t2 ≤ t3) (h34 : t3 ≤ t4) (h45 : t4 ≤ t5)
    (hwin : t5 < t0 + 900000) :
    authPolicy defaultRateLimitCfg = ⟨900000, 5⟩ ∧
    runChecks none (authPolicy defaultRateLimitCfg) [t0, t1, t2, t3, t4, t5] =
      ([Decision.allowed, Decision.allowed, Decision.allowed, Decision.allowed,
        Decision.allowed, Decision.denied ((t0 + 900000 - t5) / 1000)], some ⟨t0, 5⟩) ∧
    (t0 + 900000 - t5) / 1000 ≤ 900 ∧
    rateLimitterHandler (some ((t0 + 900000 - t5) / 1000)) =
      ⟨429, false, "Too many requests, please try again later",
        some ((t0 + 900000 - t5) / 1000)⟩ := by
  have hp : authPolicy defaultRateLimitCfg = (⟨900000, 5⟩ : Policy) := rfl
  have s0 : allow none (⟨900000, 5⟩ : Policy) t0 = (Decision.allowed, ⟨t0, 1⟩) :=
    allow_fresh 900000 5 t0 (by decide)
  have s1 := allow_in_window_allowed t0 1 900000 5 t1 h01 (by omega) (by decide)
  have s2 := allow_in_window_allowed t0 2 900000 5 t2 (by omega) (by omega) (by decide)
  have s3 := allow_in_window_allowed t0 3 900000 5 t3 (by omega) (by omega) (by decide)
  have s4 := allow_in_window_allowed t0 4 900000 5 t4 (by omega) (by omega) (by decide)
  have s5 := allow_in_window_denied t0 5 900000 5 t5 (by omega) (by omega) (by decide)
  refine ⟨rfl, ?_, by omega, rfl⟩
  rw [hp]
  simp only [runChecks, s0, s1, s2, s3, s4, s5]

theorem authLimiter_quota_enforcement_witness :
    authPolicy defaultRateLimitCfg = ⟨900000, 5⟩ ∧
    runChecks none (authPolicy defaultRateLimitCfg) [0, 0, 0, 0, 0, 0] =
      ([Decision.allowed, Decision.allowed, Decision.allowed, Decision.allowed,
        Decision.allowed, Decision.denied ((0 + 900000 - 0) / 1000)], some ⟨0, 5⟩) ∧
    (0 + 900000 - 0) / 1000 ≤ 900 ∧
    rateLimitterHandler (some ((0 + 900000 - 0) / 1000)) =
      ⟨429, false, "Too many requests, please try again later",
        some ((0 + 900000 - 0) / 1000)⟩ :=
  authLimiter_quota_enforcement 0 0 0 0 0 0 (by decide) (by decide) (by decide)
    (by decide) (by decide) (by decide)

/-! ## Theorems about the composed middleware chain -/

/-- Claim C1, counterexample: with the general window for the key already at
its maximum of 100, a request to an auth path is allowed by the auth-strict
policy, yet the general counter does not advance — the request is denied by
the general policy without incrementing it, so the claim that both counters
advance whenever the auth-strict policy allows is false. -/
theorem apiLimiter_counter_not_advanced :
    (allow (none : Option WindowRecord) (authPolicy defaultRateLimitCfg) 0).1 =
      Decision.allowed ∧
    processRequest defaultRateLimitCfg "/auth/login" ⟨none, some ⟨0, 100⟩⟩ 0 =
      (ChainResult.rateLimited 900, ⟨some ⟨0, 1⟩, some ⟨0, 100⟩⟩) := by
  refine ⟨rfl, by decide⟩

/-- Claim C1, amended: on a path mounted under /auth (and distinct from the
health route), the auth-strict limiter is evaluated first: if it denies, the
chain answers with its retry hint and the general window is left exactly as
it was; if it allows, its counter has advanced by one, the general limiter
is evaluated next and its stored record is whatever the general admission
check produces — and when the general check also allows, the request is
served and the general counter has advanced by one as well. -/
theorem authLimiter_runs_before_apiLimiter (rl : RateLimitCfg) (p : String) (s : ChainState)
    (now : Nat) (hp : isAuthPath p = true) (hh : p ≠ "/health") :
    (∀ r rec, allow s.authRec (authPolicy rl) now = (Decision.denied r, rec) →
      processRequest rl p s now = (ChainResult.rateLimited r, ⟨some rec, s.apiRec⟩)) ∧
    (∀ rec, allow s.authRec (authPolicy rl) now = (Decision.allowed, rec) →
      rec.count = (currentWindow s.authRec (authPolicy rl) now).count + 1 ∧
      (processRequest rl p s now).2.apiRec = some (allow s.apiRec (apiPolicy rl) now).2 ∧
      (∀ arec, allow s.apiRec (apiPolicy rl) now = (Decision.allowed, arec) →
        processRequest rl p s now = (ChainResult.served, ⟨some rec, some arec⟩) ∧
        arec.count = (currentWindow s.apiRec (apiPolicy rl) now).count + 1)) := by
  constructor
  · intro r rec h
    simp only [processRequest, if_neg hh, hp, if_true, h]
  · intro rec h
    refine ⟨congrArg WindowRecord.count (allow_allowed_eq _ _ _ _ h), ?_, ?_⟩
    · simp only [processRequest, if_neg hh, hp, if_true, h]
      rcases ha : allow s.apiRec (apiPolicy rl) now with ⟨d, arec⟩
      cases d <;> simp
    · intro arec ha
      refine ⟨?_, congrArg WindowRecord.count (allow_allowed_eq _ _ _ _ ha)⟩
      simp only [processRequest, if_neg hh, hp, if_true, h, ha]

theorem authLimiter_runs_before_apiLimiter_witness :
    processRequest defaultRateLimitCfg "/auth/login" ⟨none, none⟩ 0 =
      (ChainResult.served, ⟨some ⟨0, 1⟩, some ⟨0, 1⟩⟩) ∧
    (⟨0, 1⟩ : WindowRecord).count =
      (currentWindow none (apiPolicy defaultRateLimitCfg) 0).count + 1 :=
  ((authLimiter_runs_before_apiLimiter defaultRateLimitCfg "/auth/login" ⟨none, none⟩ 0
      (by decide) (by decide)).2 ⟨0, 1⟩ (by decide)).2.2 ⟨0, 1⟩ (by decide)
